import Mathlib

/-!
Verification of the authorization / claims-resolution pipeline of the
organization-management backend.

The embedding mirrors the TypeScript sources:
- `generateTokenPayload`  : src/gms-be/src/auth/auth.service.ts (entitlement resolution)
- `generateTokenPayloadVariant`, `loginVariant` : src/unnamed/part_000 (variant auth service)
- `JwtStrategy.validate`  : src/gms-be/src/common/strategies/jwt.strategy.ts
- `RolesGuard.canActivate`: src/gms-be/src/common/guards/role-guard.ts

JavaScript conventions captured by the embedding:
- a missing object / missing field is `Option.none`; optional chaining `a?.b`
  is `Option.bind`;
- string falsiness: `!s` is true exactly when the string is absent or empty,
  captured by `truthy`;
- thrown exceptions are the error side of `Except`; a `try/catch` block is a
  `match` on the `Except` value; `instanceof` tests are matches on the error
  constructors;
- the NestJS exception classes are the constructors of `JsError`; a JS
  `TypeError` (e.g. reading `.roleName` of a null relation) is `typeError`.
-/

deriving instance DecidableEq for Except

/-- Error taxonomy: the NestJS HTTP exceptions thrown by the sources, plus
`typeError` for runtime JS TypeErrors raised by unguarded property access. -/
inductive JsError where
  | notFound (msg : String)
  | unauthorized (msg : String)
  | forbidden (msg : String)
  | internalError (msg : String)
  | typeError (msg : String)
deriving Repr, DecidableEq

/-- A feature row attached to an organization (`features: true` include). -/
structure FeatureRow where
  feature : String
deriving Repr, DecidableEq

/-- An organization: owns feature rows and is linked to an admin user via
`userId` (used by the variant service's `organization.findFirst({userId})`). -/
structure Organization where
  id : String
  userId : String
  features : List FeatureRow
deriving Repr, DecidableEq

/-- A role record (`role: true` include); carries `roleName`. -/
structure RoleRec where
  roleName : String
deriving Repr, DecidableEq

/-- A user-role binding row.  `role` is `Option` so that the embedding can
express a broken/null relation, the case the sources defend against with
`user.userRoles[0]?.role.roleName` throwing a TypeError. -/
structure UserRole where
  role : Option RoleRec
deriving Repr, DecidableEq

/-- A user-office binding row with its included organization. -/
structure UserOffice where
  organization : Option Organization
deriving Repr, DecidableEq

/-- A user record as fetched with the joined includes used by the sources. -/
structure User where
  id : String
  email : String
  userName : String
  password : String
  userRoles : List UserRole
  userOffice : List UserOffice
deriving Repr, DecidableEq

/-- The persisted relational state the resolution/validation code reads. -/
structure Db where
  users : List User
  organizations : List Organization
deriving Repr, DecidableEq

/-- `prisma.user.findUnique({ where: { id } })`. -/
def findUserById (db : Db) (userId : String) : Option User :=
  db.users.find? (fun u => u.id = userId)

/-- `prisma.user.findUnique({ where: { email } })`. -/
def findUserByEmail (db : Db) (email : String) : Option User :=
  db.users.find? (fun u => u.email = email)

/-- `prisma.organization.findFirst({ where: { userId } })`. -/
def findOrgByUserId (db : Db) (userId : String) : Option Organization :=
  db.organizations.find? (fun o => o.userId = userId)

/-- JS truthiness of an optional string: present and non-empty. -/
def truthy : Option String → Bool
  | none => false
  | some s => s ≠ ""

/-- Modelled from the spec: the static global feature catalog
(`src/common/constants/features` is not among the sources).  The spec treats
it as process-wide immutable configuration of opaque capability strings; the
concrete entries are irrelevant to every claim, so a fixed nonempty list
stands in for it. -/
def ALL_FEATURES : List String :=
  ["organizations", "offices", "bankAccounts"]

/-- The JWT payload produced by the issuers
(src/gms-be/src/auth/interfaces/auth.interface.ts). -/
structure JwtPayload where
  sub : String
  email : String
  role : String
  organizationId : Option String
  features : List String
  isSuperAdmin : Bool
deriving Repr, DecidableEq

/-- `user.userRoles[0]?.role.roleName || 'user'`: `'user'` when there is no
binding or the name is falsy; a TypeError when the first binding's `role`
relation is null (no optional chaining guards that access). -/
def roleOfUser (user : User) : Except JsError String :=
  match user.userRoles.head? with
  | none => .ok "user"
  | some ur =>
    match ur.role with
    | none => .error (.typeError "Cannot read properties of null (reading roleName)")
    | some r => .ok (if r.roleName = "" then "user" else r.roleName)

/-- `user.userOffice[0]?.organization`: the organization joined through the
first office binding, if any. -/
def officeOrganization (user : User) : Option Organization :=
  (user.userOffice.head?).bind (fun uo => uo.organization)

/-- Body of `AuthService.generateTokenPayload` (src/gms-be/src/auth/auth.service.ts,
lines 32-84), before the enclosing catch-all: fetch the user, derive the role
from the first binding, then either grant the full catalog (superadmin) or the
office organization's feature strings filtered of falsy entries. -/
def generateTokenPayloadBody (db : Db) (userId : String) : Except JsError JwtPayload :=
  match findUserById db userId with
  | none => .error (.notFound "User not found")
  | some user =>
    match roleOfUser user with
    | .error e => .error e
    | .ok role =>
      let isSuperAdmin := role = "superAdmin"
      let organization := officeOrganization user
      let organizationId := if isSuperAdmin then none else organization.map (fun o => o.id)
      let features :=
        if isSuperAdmin then ALL_FEATURES
        else
          match organization with
          | some org => (org.features.map (fun f => f.feature)).filter (fun s => s ≠ "")
          | none => []
      .ok { sub := user.id, email := user.email, role := role,
            organizationId := organizationId, features := features,
            isSuperAdmin := isSuperAdmin }

/-- `AuthService.generateTokenPayload` with its own `try/catch`
(auth.service.ts lines 30-92): every failure inside the body, including the
`NotFoundException` it throws itself, is caught and replaced by
`InternalServerErrorException('Error generating auth token')`. -/
def generateTokenPayload (db : Db) (userId : String) : Except JsError JwtPayload :=
  match generateTokenPayloadBody db userId with
  | .ok p => .ok p
  | .error _ => .error (.internalError "Error generating auth token")

/-- Body of the variant `generateTokenPayload` (src/unnamed/part_000, lines
32-91): same user fetch and role derivation, but the non-superadmin branch
resolves the organization by `organization.findFirst({userId})` and does NOT
filter falsy feature strings.  Its inner try/catch around the organization
query is modelled implicitly: the embedded query is total, so the catch arm
(`features = []`) is unreachable. -/
def generateTokenPayloadVariantBody (db : Db) (userId : String) :
    Except JsError JwtPayload :=
  match findUserById db userId with
  | none => .error (.notFound "User not found")
  | some user =>
    match roleOfUser user with
    | .error e => .error e
    | .ok role =>
      let isSuperAdmin := role = "superAdmin"
      if isSuperAdmin then
        .ok { sub := user.id, email := user.email, role := role,
              organizationId := none, features := ALL_FEATURES,
              isSuperAdmin := isSuperAdmin }
      else
        let org := findOrgByUserId db user.id
        let organizationId := org.map (fun o => o.id)
        let features := (org.map (fun o => o.features.map (fun f => f.feature))).getD []
        .ok { sub := user.id, email := user.email, role := role,
              organizationId := organizationId, features := features,
              isSuperAdmin := isSuperAdmin }

/-- Variant `generateTokenPayload` with its enclosing catch-all (part_000
lines 30-99): any failure becomes
`InternalServerErrorException('Error generating auth token')`. -/
def generateTokenPayloadVariant (db : Db) (userId : String) :
    Except JsError JwtPayload :=
  match generateTokenPayloadVariantBody db userId with
  | .ok p => .ok p
  | .error _ => .error (.internalError "Error generating auth token")

/-- The `req.user` object as a JS record: a field the producing code did not
set is `none`.  `JwtStrategy.validate` sets `id`/`email`/`organizationId`/
`features`/`isSuperAdmin`/`role`; it never sets `userId` or `roleName`, the
two fields `RolesGuard` reads. -/
structure ReqUser where
  userId : Option String
  roleName : Option String
  id : Option String
  email : Option String
  organizationId : Option String
  features : List String
  isSuperAdmin : Bool
  role : Option String
deriving Repr, DecidableEq

/-- `user.userRoles.some(ur => ur.role.roleName === 'superAdmin')`
(jwt.strategy.ts line 84).  JS `Array.some` scans left to right and stops at
the first hit; accessing `.roleName` of a null `role` relation throws. -/
def someIsSuperAdmin : List UserRole → Except JsError Bool
  | [] => .ok false
  | ur :: rest =>
    match ur.role with
    | none => .error (.typeError "Cannot read properties of null (reading roleName)")
    | some r => if r.roleName = "superAdmin" then .ok true else someIsSuperAdmin rest

/-- Body of `JwtStrategy.validate` (jwt.strategy.ts lines 42-108), before the
outer catch: payload shape check, live re-fetch of the user, organization and
features taken from the first office binding WITHOUT filtering falsy feature
strings, superadmin detected across ALL role bindings, orphan check, then the
enriched `req.user` object (which carries `id`/`role`, not
`userId`/`roleName`). -/
def validateBody (db : Db) (payload : JwtPayload) : Except JsError ReqUser :=
  if payload.sub = "" ∨ payload.email = "" then
    .error (.unauthorized "Invalid token format")
  else
    match findUserById db payload.sub with
    | none => .error (.unauthorized "User not found")
    | some user =>
      let organization := officeOrganization user
      let organizationId := organization.map (fun o => o.id)
      let features := (organization.map (fun o => o.features.map (fun f => f.feature))).getD []
      match someIsSuperAdmin user.userRoles with
      | .error e => .error e
      | .ok isSuperAdmin =>
        if ¬ isSuperAdmin ∧ ¬ truthy organizationId then
          .error (.unauthorized "User has no organization access")
        else
          match roleOfUser user with
          | .error e => .error e
          | .ok role =>
            .ok { userId := none, roleName := none,
                  id := some user.id, email := some user.email,
                  organizationId := organizationId, features := features,
                  isSuperAdmin := isSuperAdmin, role := some role }

/-- `JwtStrategy.validate` with its outer catch (jwt.strategy.ts lines
110-117): an `UnauthorizedException` passes through unchanged, any other
failure is re-surfaced as `Unauthorized('Authentication failed')`. -/
def validate (db : Db) (payload : JwtPayload) : Except JsError ReqUser :=
  match validateBody db payload with
  | .ok u => .ok u
  | .error (.unauthorized m) => .error (.unauthorized m)
  | .error _ => .error (.unauthorized "Authentication failed")

/-- `RolesGuard.canActivate` (role-guard.ts lines 9-42).  `requiredRoles` is
the `@Roles` metadata (`[]` also stands for a route with no metadata, since
`!requiredRoles?.length` treats both alike); `user` is `req.user` (absent on
an unauthenticated request); `orgContext` is `request.organizationId`. -/
def canActivate (requiredRoles : List String) (user : Option ReqUser)
    (orgContext : Option String) : Except JsError Bool :=
  if requiredRoles.isEmpty then .ok true
  else
    let userId := user.bind (fun u => u.userId)
    let roleName := user.bind (fun u => u.roleName)
    if ¬ truthy userId ∨ ¬ truthy roleName then
      .error (.forbidden "Missing userId or roleName in token")
    else if roleName = some "organizationAdmin" then
      if ¬ truthy orgContext then
        .error (.forbidden "Organization context missing")
      else .ok true
    else if requiredRoles.contains (roleName.getD "") then .ok true
    else
      .error (.forbidden ("Access denied. Required roles: "
        ++ String.intercalate ", " requiredRoles))

/-- Login request body (src/gms-be/src/auth/dto/login.dto.ts, not in the
sources beyond its two fields). -/
structure LoginDto where
  email : String
  password : String
deriving Repr, DecidableEq

/-- `bcrypt.compare(dto.password, user.password)`: the signing/hashing
subsystem is an external collaborator; the embedding models a stored hash as
the password itself, so comparison is string equality. -/
def bcryptCompare (plain hashed : String) : Bool :=
  plain = hashed

/-- The `user` part of an `AuthResponse`
(src/gms-be/src/auth/interfaces/auth.interface.ts). -/
structure AuthUser where
  id : String
  email : String
  userName : String
  role : Option String
  organizationId : Option String
  features : List String
  isSuperAdmin : Bool
deriving Repr, DecidableEq

/-- An `AuthResponse`.  `token` is `some p` for a signed token embedding
payload `p` (the signing subsystem is modelled as injective serialization),
and `none` for the literal empty-string token `''`, which carries no
credential. -/
structure AuthResponse where
  token : Option JwtPayload
  user : AuthUser
deriving Repr, DecidableEq

/-- Body of the variant `login` (src/unnamed/part_000, lines 135-226), before
the outer catch.  After the user fetch and password check, role derivation is
wrapped in its own try/catch whose catch arm RETURNS a success-shaped
response with an empty token (lines 171-185).  Lines 187-206 compute local
`organizationId`/`features` values that the response never reads, so they are
omitted.  The payload and token come from `generateTokenPayloadVariant`;
`Array.isArray(payload.features)` is always true in the embedding. -/
def loginVariantBody (db : Db) (dto : LoginDto) : Except JsError AuthResponse :=
  match findUserByEmail db dto.email with
  | none => .error (.notFound "User not found")
  | some user =>
    if ¬ bcryptCompare dto.password user.password then
      .error (.unauthorized "Invalid credentials")
    else
      match roleOfUser user with
      | .error _ =>
        .ok { token := none,
              user := { id := user.id, email := user.email,
                        userName := user.userName, role := none,
                        organizationId := none, features := [],
                        isSuperAdmin := false } }
      | .ok _ =>
        match generateTokenPayloadVariant db user.id with
        | .error e => .error e
        | .ok payload =>
          .ok { token := some payload,
                user := { id := user.id, email := user.email,
                          userName := user.userName,
                          role := some payload.role,
                          organizationId := payload.organizationId,
                          features := payload.features,
                          isSuperAdmin := payload.isSuperAdmin } }

/-- Variant `login` with its outer catch (part_000 lines 227-233):
`NotFoundException` and `UnauthorizedException` are rethrown unchanged, any
other failure becomes `InternalServerErrorException('Login failed')`. -/
def loginVariant (db : Db) (dto : LoginDto) : Except JsError AuthResponse :=
  match loginVariantBody db dto with
  | .ok r => .ok r
  | .error (.notFound m) => .error (.notFound m)
  | .error (.unauthorized m) => .error (.unauthorized m)
  | .error _ => .error (.internalError "Login failed")

/-- Every role binding is present (non-null relation) and names a role other
than `superAdmin`.  This is the precise condition under which both role
derivations run without throwing and agree that the user is not a
superadmin. -/
def rolesAllNonSuper (l : List UserRole) : Bool :=
  l.all (fun ur =>
    match ur.role with
    | none => false
    | some rr => rr.roleName ≠ "superAdmin")

/-! Concrete fixtures used by counterexamples and witnesses. -/

/-- An organization with one feature, administered by user `u1`. -/
def org1 : Organization :=
  { id := "org1", userId := "u1", features := [{ feature := "f1" }] }

/-- A superadmin (first and only role binding `superAdmin`) who also has an
office binding to `org1`. -/
def superUser1 : User :=
  { id := "u1", email := "su@example.com", userName := "su", password := "pw",
    userRoles := [{ role := some { roleName := "superAdmin" } }],
    userOffice := [{ organization := some org1 }] }

def exDb1 : Db := { users := [superUser1], organizations := [org1] }

/-- A non-superadmin user with no office binding and no organization: an
orphaned account. -/
def orphanUser : User :=
  { id := "u2", email := "orphan@example.com", userName := "orphan", password := "pw",
    userRoles := [{ role := some { roleName := "user" } }],
    userOffice := [] }

def exDb2 : Db := { users := [orphanUser], organizations := [] }

/-- An organization whose feature rows include a falsy (empty) string. -/
def org3 : Organization :=
  { id := "org3", userId := "u3", features := [{ feature := "a" }, { feature := "" }] }

/-- An organization admin bound to `org3` through an office. -/
def orgAdminUser3 : User :=
  { id := "u3", email := "admin3@example.com", userName := "admin3", password := "pw",
    userRoles := [{ role := some { roleName := "organizationAdmin" } }],
    userOffice := [{ organization := some org3 }] }

def exDb3 : Db := { users := [orgAdminUser3], organizations := [org3] }

/-- A user whose first role binding has a null `role` relation, so that
deriving the role throws a TypeError. -/
def nullRoleUser : User :=
  { id := "u4", email := "null@example.com", userName := "nullrole", password := "pw",
    userRoles := [{ role := none }],
    userOffice := [] }

def exDb4 : Db := { users := [nullRoleUser], organizations := [] }

/-! General lemmas about the embedded operations. -/

theorem someIsSuperAdmin_of_nonsuper (l : List UserRole)
    (h : rolesAllNonSuper l = true) : someIsSuperAdmin l = .ok false := by
  induction l with
  | nil => rfl
  | cons ur rest ih =>
    simp only [rolesAllNonSuper, List.all_cons, Bool.and_eq_true] at h
    obtain ⟨h1, h2⟩ := h
    cases hr : ur.role with
    | none => rw [hr] at h1; simp at h1
    | some rr =>
      rw [hr] at h1
      simp only [decide_eq_true_eq] at h1
      simp only [someIsSuperAdmin, hr]
      rw [if_neg h1]
      exact ih h2

/-- The role derived from the first binding of a cons list with a non-null
relation. -/
theorem roleOfUser_cons (u : User) (ur : UserRole) (rest : List UserRole)
    (rr : RoleRec) (hl : u.userRoles = ur :: rest) (hr : ur.role = some rr) :
    roleOfUser u = .ok (if rr.roleName = "" then "user" else rr.roleName) := by
  simp only [roleOfUser, hl, List.head?_cons, hr]

theorem roleOfUser_of_nonsuper (u : User)
    (h : rolesAllNonSuper u.userRoles = true) :
    ∃ r, roleOfUser u = .ok r ∧ r ≠ "superAdmin" := by
  cases hl : u.userRoles with
  | nil =>
    refine ⟨"user", ?_, by decide⟩
    simp only [roleOfUser, hl, List.head?_nil]
  | cons ur rest =>
    rw [hl] at h
    simp only [rolesAllNonSuper, List.all_cons, Bool.and_eq_true] at h
    obtain ⟨h1, _⟩ := h
    cases hr : ur.role with
    | none => rw [hr] at h1; simp at h1
    | some rr =>
      rw [hr] at h1
      simp only [decide_eq_true_eq] at h1
      refine ⟨if rr.roleName = "" then "user" else rr.roleName,
        roleOfUser_cons u ur rest rr hl hr, ?_⟩
      by_cases he : rr.roleName = ""
      · rw [if_pos he]; decide
      · rw [if_neg he]; exact h1

theorem someIsSuperAdmin_of_roleOfUser_super (u : User)
    (hrole : roleOfUser u = .ok "superAdmin") :
    someIsSuperAdmin u.userRoles = .ok true := by
  cases hl : u.userRoles with
  | nil =>
    exfalso
    have hu : roleOfUser u = .ok "user" := by
      simp only [roleOfUser, hl, List.head?_nil]
    rw [hu] at hrole
    exact absurd (Except.ok.inj hrole) (by decide)
  | cons ur rest =>
    cases hr : ur.role with
    | none =>
      exfalso
      have hu : roleOfUser u
          = .error (.typeError "Cannot read properties of null (reading roleName)") := by
        simp only [roleOfUser, hl, List.head?_cons, hr]
      rw [hu] at hrole
      exact Except.noConfusion hrole
    | some rr =>
      have hru := roleOfUser_cons u ur rest rr hl hr
      rw [hru] at hrole
      have h2 := Except.ok.inj hrole
      have hname : rr.roleName = "superAdmin" := by
        by_cases he : rr.roleName = ""
        · rw [if_pos he] at h2; exact absurd h2 (by decide)
        · rw [if_neg he] at h2; exact h2
      simp only [someIsSuperAdmin, hr, hname]
      simp

/-- Shape of a successful resolution for a user whose first role binding is
`superAdmin`: no organization id, the full static catalog. -/
theorem generateTokenPayload_super (db : Db) (uid : String) (u : User)
    (hfind : findUserById db uid = some u)
    (hrole : roleOfUser u = .ok "superAdmin") :
    generateTokenPayload db uid =
      .ok { sub := u.id, email := u.email, role := "superAdmin",
            organizationId := none, features := ALL_FEATURES,
            isSuperAdmin := true } := by
  simp [generateTokenPayload, generateTokenPayloadBody, hfind, hrole]

/-- Shape of a successful resolution for a non-superadmin user with an
office organization: the organization's id, its feature strings filtered of
falsy entries. -/
theorem generateTokenPayload_nonsuper_org (db : Db) (uid : String) (u : User)
    (role : String) (org : Organization)
    (hfind : findUserById db uid = some u)
    (hrole : roleOfUser u = .ok role) (hns : role ≠ "superAdmin")
    (horg : officeOrganization u = some org) :
    generateTokenPayload db uid =
      .ok { sub := u.id, email := u.email, role := role,
            organizationId := some org.id,
            features := (org.features.map (fun f => f.feature)).filter (fun s => s ≠ ""),
            isSuperAdmin := false } := by
  simp [generateTokenPayload, generateTokenPayloadBody, hfind, hrole, horg, hns]

/-- Shape of a successful resolution for a non-superadmin user with no
office organization: no organization id, empty features. -/
theorem generateTokenPayload_nonsuper_noorg (db : Db) (uid : String) (u : User)
    (role : String)
    (hfind : findUserById db uid = some u)
    (hrole : roleOfUser u = .ok role) (hns : role ≠ "superAdmin")
    (horg : officeOrganization u = none) :
    generateTokenPayload db uid =
      .ok { sub := u.id, email := u.email, role := role,
            organizationId := none, features := [],
            isSuperAdmin := false } := by
  simp [generateTokenPayload, generateTokenPayloadBody, hfind, hrole, horg, hns]

/-- Shape of a successful validation: the organization id and UNFILTERED
feature strings from the first office binding, superadmin decided across all
bindings, and the `req.user` object carrying `id`/`role` but neither `userId`
nor `roleName`. -/
theorem validate_ok_shape (db : Db) (pay : JwtPayload) (u : User) (b : Bool)
    (role : String)
    (hsub : pay.sub ≠ "") (hem : pay.email ≠ "")
    (hfind : findUserById db pay.sub = some u)
    (hsome : someIsSuperAdmin u.userRoles = .ok b)
    (hrole : roleOfUser u = .ok role)
    (hpass : b = true ∨ truthy ((officeOrganization u).map (fun o => o.id)) = true) :
    validate db pay =
      .ok { userId := none, roleName := none, id := some u.id,
            email := some u.email,
            organizationId := (officeOrganization u).map (fun o => o.id),
            features := ((officeOrganization u).map
              (fun o => o.features.map (fun f => f.feature))).getD [],
            isSuperAdmin := b, role := some role } := by
  rcases hpass with h | h
  · subst h
    simp [validate, validateBody, hfind, hsome, hrole, hsub, hem]
  · simp [validate, validateBody, hfind, hsome, hrole, hsub, hem, h]

/-- A non-superadmin user (all bindings non-null, none `superAdmin`) with a
falsy organization id is rejected by validation as having no organization
access. -/
theorem validate_orphan (db : Db) (pay : JwtPayload) (u : User)
    (hsub : pay.sub ≠ "") (hem : pay.email ≠ "")
    (hfind : findUserById db pay.sub = some u)
    (hsome : someIsSuperAdmin u.userRoles = .ok false)
    (hnoorg : truthy ((officeOrganization u).map (fun o => o.id)) = false) :
    validate db pay = .error (.unauthorized "User has no organization access") := by
  simp [validate, validateBody, hfind, hsome, hsub, hem, hnoorg]

/-- The `List.filter` used for feature strings is the identity when every
mapped feature string is nonempty. -/
theorem filter_features_eq_self (org : Organization)
    (hfeat : ∀ f ∈ org.features, f.feature ≠ "") :
    (org.features.map (fun f => f.feature)).filter (fun s => s ≠ "")
      = org.features.map (fun f => f.feature) := by
  apply List.filter_eq_self.mpr
  intro s hs
  obtain ⟨f, hf, rfl⟩ := List.mem_map.mp hs
  simpa using hfeat f hf

/-! Claim theorems. -/

/-- Claim C1, counterexample.  `superUser1` holds a `superAdmin` role binding,
yet the Principal produced by credential validation carries
`organizationId = some "org1"` (the office organization, not `undefined`) and
features `["f1"]` (the organization's rows, not the `ALL_FEATURES` catalog):
`JwtStrategy.validate` never clears the organization fields for superadmins. -/
theorem C1_counterexample :
    validate exDb1 { sub := "u1", email := "su@example.com", role := "superAdmin",
                     organizationId := none, features := ALL_FEATURES,
                     isSuperAdmin := true }
      = .ok { userId := none, roleName := none, id := some "u1",
              email := some "su@example.com", organizationId := some "org1",
              features := ["f1"], isSuperAdmin := true,
              role := some "superAdmin" }
    ∧ (some "org1" : Option String) ≠ none
    ∧ ["f1"] ≠ ALL_FEATURES := by decide

/-- Claim C1, amended.  For every user whose FIRST role binding is
`superAdmin`, claims resolution (`generateTokenPayload`) yields
`isSuperAdmin = true`, `organizationId = none` and `features = ALL_FEATURES`;
credential validation (`JwtStrategy.validate`) also yields
`isSuperAdmin = true` but takes `organizationId` and `features` from the
user's first office organization (unfiltered), not from the catalog. -/
theorem C1_theorem (db : Db) (pay : JwtPayload) (u : User)
    (hsub : pay.sub ≠ "") (hem : pay.email ≠ "")
    (hfind : findUserById db pay.sub = some u)
    (hrole : roleOfUser u = .ok "superAdmin") :
    generateTokenPayload db pay.sub =
      .ok { sub := u.id, email := u.email, role := "superAdmin",
            organizationId := none, features := ALL_FEATURES,
            isSuperAdmin := true } ∧
    validate db pay =
      .ok { userId := none, roleName := none, id := some u.id,
            email := some u.email,
            organizationId := (officeOrganization u).map (fun o => o.id),
            features := ((officeOrganization u).map
              (fun o => o.features.map (fun f => f.feature))).getD [],
            isSuperAdmin := true, role := some "superAdmin" } := by
  have hsome := someIsSuperAdmin_of_roleOfUser_super u hrole
  exact ⟨generateTokenPayload_super db pay.sub u hfind hrole,
         validate_ok_shape db pay u true "superAdmin" hsub hem hfind hsome hrole
           (Or.inl rfl)⟩

/-- Witness for `C1_theorem` at `exDb1` / `superUser1`. -/
theorem C1_witness :
    generateTokenPayload exDb1 "u1" =
      .ok { sub := "u1", email := "su@example.com", role := "superAdmin",
            organizationId := none, features := ALL_FEATURES,
            isSuperAdmin := true } ∧
    validate exDb1 { sub := "u1", email := "su@example.com", role := "superAdmin",
                     organizationId := none, features := ALL_FEATURES,
                     isSuperAdmin := true } =
      .ok { userId := none, roleName := none, id := some "u1",
            email := some "su@example.com", organizationId := some "org1",
            features := ["f1"], isSuperAdmin := true,
            role := some "superAdmin" } := by
  have h := C1_theorem exDb1
    { sub := "u1", email := "su@example.com", role := "superAdmin",
      organizationId := none, features := ALL_FEATURES, isSuperAdmin := true }
    superUser1 (by decide) (by decide) (by decide) (by decide)
  exact ⟨h.1, h.2⟩

/-- Claim C2, counterexample.  For the orphaned non-superadmin `orphanUser`
(no office organization), a fresh resolution succeeds (role `user`, empty
features), but validating the very credential issued from that resolution
fails with `Unauthorized('User has no organization access')` — so
`validate(issue(resolve(u)))` is not equal to a fresh `resolve(u)`. -/
theorem C2_counterexample :
    generateTokenPayload exDb2 "u2"
      = .ok { sub := "u2", email := "orphan@example.com", role := "user",
              organizationId := none, features := [], isSuperAdmin := false } ∧
    validate exDb2 { sub := "u2", email := "orphan@example.com", role := "user",
                     organizationId := none, features := [], isSuperAdmin := false }
      = .error (.unauthorized "User has no organization access") := by decide

/-- Claim C2, amended.  The round-trip holds for users with no `superAdmin`
binding (and no null role relation) who are bound to an office organization
with a truthy id all of whose feature strings are nonempty: validation of the
freshly issued credential then returns a Principal agreeing with the fresh
resolution on role, organizationId, features and isSuperAdmin, with the
identity fields `id`/`email` taken from the token's `sub`/`email`.  (Outside
this domain the two sides differ: orphans fail validation, empty feature
strings are filtered only at issuance, and superadmin detection disagrees
between first-binding and any-binding.) -/
theorem C2_theorem (db : Db) (u : User) (org : Organization)
    (hsubne : u.id ≠ "") (hemne : u.email ≠ "")
    (hfind : findUserById db u.id = some u)
    (hns : rolesAllNonSuper u.userRoles = true)
    (horg : officeOrganization u = some org)
    (hoid : org.id ≠ "")
    (hfeat : ∀ f ∈ org.features, f.feature ≠ "") :
    ∃ p r, generateTokenPayload db u.id = .ok p ∧ validate db p = .ok r ∧
      r.id = some p.sub ∧ r.email = some p.email ∧
      r.role = some p.role ∧ r.organizationId = p.organizationId ∧
      r.features = p.features ∧ r.isSuperAdmin = p.isSuperAdmin := by
  obtain ⟨role, hrole, hnsr⟩ := roleOfUser_of_nonsuper u hns
  have hsome := someIsSuperAdmin_of_nonsuper u.userRoles hns
  have hgen := generateTokenPayload_nonsuper_org db u.id u role org hfind hrole hnsr horg
  have htr : truthy ((officeOrganization u).map (fun o => o.id)) = true := by
    rw [horg]; simpa [truthy] using hoid
  have hval := validate_ok_shape db
    { sub := u.id, email := u.email, role := role,
      organizationId := some org.id,
      features := (org.features.map (fun f => f.feature)).filter (fun s => s ≠ ""),
      isSuperAdmin := false }
    u false role hsubne hemne hfind hsome hrole (Or.inr htr)
  refine ⟨_, _, hgen, hval, rfl, rfl, rfl, ?_, ?_, rfl⟩
  · simp [horg]
  · rw [horg, filter_features_eq_self org hfeat]
    rfl

/-- An organization admin (single `organizationAdmin` binding) bound through
an office to `org5`, whose feature strings are all nonempty. -/
def org5 : Organization :=
  { id := "org5", userId := "u5", features := [{ feature := "a" }, { feature := "b" }] }

def orgAdminUser5 : User :=
  { id := "u5", email := "admin5@example.com", userName := "admin5", password := "pw",
    userRoles := [{ role := some { roleName := "organizationAdmin" } }],
    userOffice := [{ organization := some org5 }] }

def exDb5 : Db := { users := [orgAdminUser5], organizations := [org5] }

/-- Witness for `C2_theorem` at `exDb5` / `orgAdminUser5`. -/
theorem C2_witness :
    ∃ p r, generateTokenPayload exDb5 "u5" = .ok p ∧ validate exDb5 p = .ok r ∧
      r.id = some p.sub ∧ r.email = some p.email ∧
      r.role = some p.role ∧ r.organizationId = p.organizationId ∧
      r.features = p.features ∧ r.isSuperAdmin = p.isSuperAdmin := by
  exact C2_theorem exDb5 orgAdminUser5 org5 (by decide) (by decide) (by decide)
    (by decide) (by decide) (by decide) (by decide)

/-- Claim C3: the code contradicts it.  For a missing user record both
resolvers throw `NotFoundException('User not found')` internally, but their
own enclosing catch-all replaces it with
`InternalServerErrorException('Error generating auth token')`, so the
`NotFound` kind is NOT preserved to the operation boundary.  Evaluated at the
failing input `userId = "ghost"` on an empty database. -/
theorem C3_theorem :
    generateTokenPayloadBody { users := [], organizations := [] } "ghost"
      = .error (.notFound "User not found") ∧
    generateTokenPayload { users := [], organizations := [] } "ghost"
      = .error (.internalError "Error generating auth token") ∧
    generateTokenPayloadVariantBody { users := [], organizations := [] } "ghost"
      = .error (.notFound "User not found") ∧
    generateTokenPayloadVariant { users := [], organizations := [] } "ghost"
      = .error (.internalError "Error generating auth token") := by decide

/-- Claim C4: the organization-admin bypass ignores the content of
`requiredRoles`.  For every nonempty `requiredRoles` — including
`["superAdmin"]`, the set declared on the organization controller's update
route — a request user carrying a truthy `userId` and
`roleName = "organizationAdmin"` is allowed whenever a truthy
`organizationId` context is attached to the request. -/
theorem C4_theorem (requiredRoles : List String) (hne : requiredRoles ≠ [])
    (u : ReqUser) (uid : String) (huid : u.userId = some uid) (huidne : uid ≠ "")
    (hrn : u.roleName = some "organizationAdmin")
    (ctx : String) (hctx : ctx ≠ "") :
    canActivate requiredRoles (some u) (some ctx) = .ok true := by
  cases requiredRoles with
  | nil => exact absurd rfl hne
  | cons a as =>
    simp [canActivate, truthy, huid, huidne, hrn, hctx]

/-- Witness for `C4_theorem`: a route requiring only `superAdmin` admits an
`organizationAdmin` principal with an organization context. -/
theorem C4_witness :
    canActivate ["superAdmin"]
      (some { userId := some "u5", roleName := some "organizationAdmin",
              id := none, email := none, organizationId := some "org5",
              features := [], isSuperAdmin := false, role := none })
      (some "org5") = .ok true := by
  exact C4_theorem ["superAdmin"] (by decide)
    { userId := some "u5", roleName := some "organizationAdmin",
      id := none, email := none, organizationId := some "org5",
      features := [], isSuperAdmin := false, role := none }
    "u5" rfl (by decide) rfl "org5" (by decide)

/-- Claim C5: for an `organizationAdmin` principal (carrying the identity
fields the gate reads) and any nonempty `requiredRoles`, the gate allows iff
a truthy organization context is attached; otherwise it throws
`Forbidden('Organization context missing')` even though the role matches. -/
theorem C5_theorem (requiredRoles : List String) (hne : requiredRoles ≠ [])
    (u : ReqUser) (uid : String) (huid : u.userId = some uid) (huidne : uid ≠ "")
    (hrn : u.roleName = some "organizationAdmin") (ctx : Option String) :
    canActivate requiredRoles (some u) ctx =
      (if truthy ctx then .ok true
       else .error (.forbidden "Organization context missing")) := by
  cases requiredRoles with
  | nil => exact absurd rfl hne
  | cons a as =>
    cases ctx with
    | none => simp [canActivate, truthy, huid, huidne, hrn]
    | some c =>
      by_cases hcne : c = ""
      · subst hcne; simp [canActivate, truthy, huid, huidne, hrn]
      · simp [canActivate, truthy, huid, huidne, hrn, hcne]

/-- Witness for `C5_theorem`: an `organizationAdmin` principal on a route
requiring `organizationAdmin` is denied with the organization-context error
when no context is attached, and allowed when one is. -/
theorem C5_witness :
    canActivate ["organizationAdmin"]
      (some { userId := some "u5", roleName := some "organizationAdmin",
              id := none, email := none, organizationId := none,
              features := [], isSuperAdmin := false, role := none })
      none = .error (.forbidden "Organization context missing") ∧
    canActivate ["organizationAdmin"]
      (some { userId := some "u5", roleName := some "organizationAdmin",
              id := none, email := none, organizationId := none,
              features := [], isSuperAdmin := false, role := none })
      (some "org5") = .ok true := by
  constructor
  · have h := C5_theorem ["organizationAdmin"] (by decide)
      { userId := some "u5", roleName := some "organizationAdmin",
        id := none, email := none, organizationId := none,
        features := [], isSuperAdmin := false, role := none }
      "u5" rfl (by decide) rfl none
    simpa using h
  · have h := C5_theorem ["organizationAdmin"] (by decide)
      { userId := some "u5", roleName := some "organizationAdmin",
        id := none, email := none, organizationId := none,
        features := [], isSuperAdmin := false, role := none }
      "u5" rfl (by decide) rfl (some "org5")
    simpa [truthy] using h

/-- Claim C6: for a decoded credential (truthy `sub`/`email`) whose subject
user exists, holds no `superAdmin` binding (the code's any-binding check
returns false), and has no truthy office-organization id, validation fails
with `Unauthorized('User has no organization access')` and returns no
Principal. -/
theorem C6_theorem (db : Db) (pay : JwtPayload) (u : User)
    (hsub : pay.sub ≠ "") (hem : pay.email ≠ "")
    (hfind : findUserById db pay.sub = some u)
    (hsome : someIsSuperAdmin u.userRoles = .ok false)
    (hnoorg : truthy ((officeOrganization u).map (fun o => o.id)) = false) :
    validate db pay = .error (.unauthorized "User has no organization access") := by
  exact validate_orphan db pay u hsub hem hfind hsome hnoorg

/-- Witness for `C6_theorem` at `exDb2` / `orphanUser`. -/
theorem C6_witness :
    validate exDb2 { sub := "u2", email := "orphan@example.com", role := "user",
                     organizationId := none, features := [], isSuperAdmin := false }
      = .error (.unauthorized "User has no organization access") := by
  exact C6_theorem exDb2
    { sub := "u2", email := "orphan@example.com", role := "user",
      organizationId := none, features := [], isSuperAdmin := false }
    orphanUser (by decide) (by decide) (by decide) (by decide) (by decide)

/-- Structural fact about the validator's output: every `req.user` object it
can return leaves `userId` and `roleName` unset, since the enriched object is
built only from `id`/`email`/`organizationId`/`features`/`isSuperAdmin`/`role`. -/
theorem validate_ok_fields (db : Db) (pay : JwtPayload) (r : ReqUser)
    (hok : validate db pay = .ok r) : r.userId = none ∧ r.roleName = none := by
  unfold validate at hok
  split at hok
  case _ u heq =>
    rw [Except.ok.injEq] at hok
    subst hok
    unfold validateBody at heq
    split at heq
    · exact Except.noConfusion heq
    · split at heq
      · exact Except.noConfusion heq
      · split at heq
        · exact Except.noConfusion heq
        · split at heq
          · simp only [] at heq
            split at heq
            · exact Except.noConfusion heq
            · exact Except.noConfusion heq
          · simp only [] at heq
            split at heq
            · exact Except.noConfusion heq
            · rw [Except.ok.injEq] at heq
              subst heq
              exact ⟨rfl, rfl⟩
  case _ => exact Except.noConfusion hok
  case _ => exact Except.noConfusion hok

/-- Claim C7: the validator's principal never passes the gate.  Whatever
Principal `JwtStrategy.validate` successfully returns (its fields are `id`
and `role`), `RolesGuard.canActivate` with any nonempty `requiredRoles` — and
regardless of the attached organization context — throws
`Forbidden('Missing userId or roleName in token')`, because the guard reads
`userId` and `roleName`, which the validator never sets. -/
theorem C7_theorem (db : Db) (pay : JwtPayload) (r : ReqUser)
    (hok : validate db pay = .ok r)
    (requiredRoles : List String) (hne : requiredRoles ≠ [])
    (ctx : Option String) :
    canActivate requiredRoles (some r) ctx
      = .error (.forbidden "Missing userId or roleName in token") := by
  obtain ⟨huid, _⟩ := validate_ok_fields db pay r hok
  cases requiredRoles with
  | nil => exact absurd rfl hne
  | cons a as => simp [canActivate, truthy, huid]

/-- Witness for `C7_theorem`: the principal validated for `orgAdminUser5` is
rejected by the guard even on a route requiring exactly its role. -/
theorem C7_witness :
    canActivate ["organizationAdmin"]
      (some { userId := none, roleName := none, id := some "u5",
              email := some "admin5@example.com", organizationId := some "org5",
              features := ["a", "b"], isSuperAdmin := false,
              role := some "organizationAdmin" })
      (some "org5")
      = .error (.forbidden "Missing userId or roleName in token") := by
  exact C7_theorem exDb5
    { sub := "u5", email := "admin5@example.com", role := "organizationAdmin",
      organizationId := some "org5", features := ["a", "b"], isSuperAdmin := false }
    { userId := none, roleName := none, id := some "u5",
      email := some "admin5@example.com", organizationId := some "org5",
      features := ["a", "b"], isSuperAdmin := false,
      role := some "organizationAdmin" }
    (by decide) ["organizationAdmin"] (by decide) (some "org5")

/-- Claim C8, counterexample.  `org3` carries feature rows `"a"` and `""`.
Resolution filters the falsy entry (`features = ["a"]`), but the Principal
produced by credential validation keeps it (`features = ["a", ""]`): the
validator does not filter empty feature strings, so the two paths disagree
and the claim's "both ... filtered" is false. -/
theorem C8_counterexample :
    generateTokenPayload exDb3 "u3"
      = .ok { sub := "u3", email := "admin3@example.com", role := "organizationAdmin",
              organizationId := some "org3", features := ["a"],
              isSuperAdmin := false } ∧
    validate exDb3 { sub := "u3", email := "admin3@example.com",
                     role := "organizationAdmin", organizationId := some "org3",
                     features := ["a"], isSuperAdmin := false }
      = .ok { userId := none, roleName := none, id := some "u3",
              email := some "admin3@example.com", organizationId := some "org3",
              features := ["a", ""], isSuperAdmin := false,
              role := some "organizationAdmin" } ∧
    "" ∈ ["a", ""] := by decide

/-- Claim C8, amended.  For a user with no `superAdmin` binding bound through
an office to organization `org` (truthy id): resolution yields
`organizationId = some org.id` and the feature strings filtered of falsy
entries, while validation yields the same `organizationId` but the UNFILTERED
feature strings. -/
theorem C8_theorem (db : Db) (pay : JwtPayload) (u : User) (org : Organization)
    (hsub : pay.sub = u.id) (hsubne : u.id ≠ "") (hem : pay.email ≠ "")
    (hfind : findUserById db u.id = some u)
    (hns : rolesAllNonSuper u.userRoles = true)
    (horg : officeOrganization u = some org) (hoid : org.id ≠ "") :
    (∃ p, generateTokenPayload db u.id = .ok p ∧
       p.organizationId = some org.id ∧
       p.features = (org.features.map (fun f => f.feature)).filter (fun s => s ≠ "")) ∧
    (∃ r, validate db pay = .ok r ∧
       r.organizationId = some org.id ∧
       r.features = org.features.map (fun f => f.feature)) := by
  obtain ⟨role, hrole, hnsr⟩ := roleOfUser_of_nonsuper u hns
  have hsome := someIsSuperAdmin_of_nonsuper u.userRoles hns
  have hgen := generateTokenPayload_nonsuper_org db u.id u role org hfind hrole hnsr horg
  have htr : truthy ((officeOrganization u).map (fun o => o.id)) = true := by
    rw [horg]; simpa [truthy] using hoid
  have hfind2 : findUserById db pay.sub = some u := by rw [hsub]; exact hfind
  have hval := validate_ok_shape db pay u false role
    (by rw [hsub]; exact hsubne) hem hfind2 hsome hrole (Or.inr htr)
  refine ⟨⟨_, hgen, rfl, rfl⟩, ⟨_, hval, ?_, ?_⟩⟩
  · simp [horg]
  · simp [horg]

/-- Witness for `C8_theorem` at `exDb3` / `orgAdminUser3` / `org3`. -/
theorem C8_witness :
    (∃ p, generateTokenPayload exDb3 "u3" = .ok p ∧
       p.organizationId = some "org3" ∧
       p.features = (org3.features.map (fun f => f.feature)).filter (fun s => s ≠ "")) ∧
    (∃ r, validate exDb3 { sub := "u3", email := "admin3@example.com",
                           role := "organizationAdmin", organizationId := some "org3",
                           features := ["a"], isSuperAdmin := false } = .ok r ∧
       r.organizationId = some "org3" ∧
       r.features = org3.features.map (fun f => f.feature)) := by
  exact C8_theorem exDb3
    { sub := "u3", email := "admin3@example.com", role := "organizationAdmin",
      organizationId := some "org3", features := ["a"], isSuperAdmin := false }
    orgAdminUser3 org3 rfl (by decide) (by decide) (by decide) (by decide)
    (by decide) (by decide)

/-- Claim C9: with empty `requiredRoles` the gate allows unconditionally; and
for a principal carrying truthy `userId`/`roleName` whose role is not
`organizationAdmin`, the gate allows iff the role is a member of
`requiredRoles`, otherwise throwing a `Forbidden` that lists the required
roles. -/
theorem C9_theorem (requiredRoles : List String) (user : Option ReqUser)
    (ctx : Option String) :
    (requiredRoles = [] → canActivate requiredRoles user ctx = .ok true) ∧
    (∀ u uid rn, requiredRoles ≠ [] → user = some u →
      u.userId = some uid → uid ≠ "" → u.roleName = some rn → rn ≠ "" →
      rn ≠ "organizationAdmin" →
      canActivate requiredRoles user ctx =
        (if requiredRoles.contains rn then .ok true
         else .error (.forbidden ("Access denied. Required roles: "
           ++ String.intercalate ", " requiredRoles)))) := by
  constructor
  · intro h; subst h; rfl
  · intro u uid rn hne hu huid huidne hrn hrnne hrna
    subst hu
    cases requiredRoles with
    | nil => exact absurd rfl hne
    | cons a as =>
      by_cases hc : (a :: as).contains rn = true
      · simp [canActivate, truthy, huid, huidne, hrn, hrnne, hrna, hc]
      · simp [canActivate, truthy, huid, huidne, hrn, hrnne, hrna, hc]

/-- Witness for `C9_theorem`: an unrestricted route allows anyone, and a
`user`-role principal is denied on a `superAdmin`-only route with the
role-listing message. -/
theorem C9_witness :
    canActivate [] none none = .ok true ∧
    canActivate ["superAdmin"]
      (some { userId := some "u9", roleName := some "user", id := none,
              email := none, organizationId := none, features := [],
              isSuperAdmin := false, role := none })
      none
      = .error (.forbidden "Access denied. Required roles: superAdmin") := by
  constructor
  · exact (C9_theorem [] none none).1 rfl
  · have h2 := C9_theorem ["superAdmin"]
      (some { userId := some "u9", roleName := some "user", id := none,
              email := none, organizationId := none, features := [],
              isSuperAdmin := false, role := none })
      none
    have h := h2.2
      { userId := some "u9", roleName := some "user", id := none,
        email := none, organizationId := none, features := [],
        isSuperAdmin := false, role := none }
      "u9" "user" (by decide) rfl rfl (by decide) rfl (by decide) (by decide)
    rw [h]
    decide

/-- Claim C10: in the variant login, when deriving the role from the fetched
user's role bindings throws (first binding with a null `role` relation),
login does not raise: it returns a success-shaped `AuthResponse` whose token
is the empty string (`none` in the embedding), with `role` undefined,
`organizationId` undefined, `features = []` and `isSuperAdmin = false`. -/
theorem C10_theorem (db : Db) (dto : LoginDto) (u : User) (ur : UserRole)
    (hfind : findUserByEmail db dto.email = some u)
    (hpw : bcryptCompare dto.password u.password = true)
    (hhead : u.userRoles.head? = some ur) (hnull : ur.role = none) :
    loginVariant db dto =
      .ok { token := none,
            user := { id := u.id, email := u.email, userName := u.userName,
                      role := none, organizationId := none, features := [],
                      isSuperAdmin := false } } := by
  have hrole : roleOfUser u
      = .error (.typeError "Cannot read properties of null (reading roleName)") := by
    simp only [roleOfUser, hhead, hnull]
  simp [loginVariant, loginVariantBody, hfind, hpw, hrole]

/-- Witness for `C10_theorem` at `exDb4` / `nullRoleUser`. -/
theorem C10_witness :
    loginVariant exDb4 { email := "null@example.com", password := "pw" }
      = .ok { token := none,
              user := { id := "u4", email := "null@example.com",
                        userName := "nullrole", role := none,
                        organizationId := none, features := [],
                        isSuperAdmin := false } } := by
  exact C10_theorem exDb4 { email := "null@example.com", password := "pw" }
    nullRoleUser { role := none } (by decide) (by decide) (by decide) rfl
